import Mathlib

/-!
Shallow embedding of the runtime-bridge core of the `cacao` repository
(AppKit/UIKit wrapper): the dynamic subclass registry
(`src/appkit/src/window/controller.rs`, `src/src/view/controller/macos.rs`),
the widget handles `TextField` (`src/src/input/mod.rs`) and `ListView`
(`src/src/listview/mod.rs`) with their constructors, drop glue, cell factory,
dequeue and batch-update protocol, and the delegate-pointer bridge used by the
`windowWillClose:` trampoline.

Interactions with the Objective-C host runtime are modelled as explicit data:
host objects are opaque numeric identifiers, message sends that matter to the
specification are recorded as events in a trace, and host responses (such as
the reuse-pool lookup) are oracle parameters.  Rust `panic!`/`unwrap` failures
are a distinguished `Outcome.panic` variant, kept separate from
`Outcome.err`, the explicit result-or-error return channel, so that the two
failure styles can be told apart in theorems.
-/

namespace Cacao

/-! ## Ivar slot names

`TEXTFIELD_DELEGATE_PTR`, `LISTVIEW_DELEGATE_PTR` and `LISTVIEW_CELL_VENDOR_PTR`
are the literals from `src/src/input/mod.rs` and `src/src/listview/mod.rs`.
`WINDOW_CONTROLLER_PTR` and `VIEW_DELEGATE_PTR` are imported by the controller
files from modules absent from `src/`; their values are the family-unique
constants named in the specification (§4.1). -/

def WINDOW_CONTROLLER_PTR : String := "rstWindowControllerPtr"

def VIEW_DELEGATE_PTR : String := "rstViewDelegatePtr"

def TEXTFIELD_DELEGATE_PTR : String := "rstTextFieldDelegatePtr"

def LISTVIEW_DELEGATE_PTR : String := "rstListViewDelegatePtr"

def LISTVIEW_CELL_VENDOR_PTR : String := "rstListViewCellVendorPtr"

/-- Modelled from the spec: the list-row subclass (src/src/listview/row.rs is
not under src/) carries its own family-unique delegate-pointer ivar (§4.1). -/
def LISTVIEW_ROW_DELEGATE_PTR : String := "rstListViewRowDelegatePtr"

/-! ## Dynamic subclass registry

`register_window_controller_class::<T>` and `register_view_controller_class::<T>`
each hold a `static mut` class pointer guarded by a `static Once`.  In Rust a
`static` item inside a generic function is a single item shared by every
monomorphization, so the guard and the cached class are per widget family, not
per callback type; the callback type only influences which trampolines are
installed by the one call that wins the `Once`.  The model therefore passes the
per-family static explicitly and takes the callback type as a numeric token. -/

/-- A registered host subclass: its runtime name, added ivars, and its selector
table, each selector paired with the numeric token of the callback type whose
trampoline implements it. -/
structure ClassHandle where
  name : String
  ivars : List String
  methods : List (String × Nat)
deriving DecidableEq, Repr

/-- The host runtime: the list of classes registered with it (newest first).
Pre-existing non-wrapper classes are modelled as entries present initially. -/
structure HostRuntime where
  registered : List ClassHandle
deriving DecidableEq, Repr

/-- `ClassDecl::new` fails exactly when the wanted name is already taken. -/
def HostRuntime.hasName (rt : HostRuntime) (n : String) : Bool :=
  rt.registered.any (fun c => c.name == n)

/-- The `static mut DELEGATE_CLASS` / `static INIT: Once` pair of one
registration function: `none` means the `Once` has not fired yet. -/
structure FamilyStatic where
  delegateClass : Option ClassHandle
deriving DecidableEq, Repr

/-- Result channel of a modelled Rust computation.  `ok` is a normal return,
`err` is an explicit result-or-error value handed to the caller, and `panic`
is the failure channel (a `panic!` or `unwrap` unwind). -/
inductive Outcome (α : Type) where
  | ok : α → Outcome α
  | err : String → Outcome α
  | panic : String → Outcome α
deriving DecidableEq, Repr

/-- Discriminator: did the computation return an explicit error value? -/
def Outcome.isErr {α : Type} : Outcome α → Bool
  | .err _ => true
  | _ => false

/-- Discriminator: did the computation exit through the failure channel? -/
def Outcome.isPanic {α : Type} : Outcome α → Bool
  | .panic _ => true
  | _ => false

/-- The message of the panic raised by `Option::unwrap` on `None`, which is
what `ClassDecl::new(..).unwrap()` does when the host rejects the name. -/
def unwrapMsg : String := "called Option::unwrap on a None value"

/-- The class handle built by a registration body: the family name, the one
added pointer-sized ivar, and the selector table bound to callback type `ty`. -/
def mkRegisteredClass (className ivarName : String) (selectors : List String)
    (ty : Nat) : ClassHandle :=
  { name := className
    ivars := [ivarName]
    methods := selectors.map (fun s => (s, ty)) }

/-- Common shape of `register_window_controller_class` and
`register_view_controller_class`: if the family `Once` has fired, return the
cached class without touching the runtime; otherwise run the closure, which
builds a `ClassDecl` (panicking via `unwrap` if the name is taken), adds the
ivar and the trampolines for callback type `ty`, registers the class and
caches it. -/
def registerFamilyClass (className ivarName : String) (selectors : List String)
    (ty : Nat) (st : FamilyStatic) (rt : HostRuntime) :
    Outcome (ClassHandle × FamilyStatic × HostRuntime) :=
  match st.delegateClass with
  | some c => Outcome.ok (c, st, rt)
  | none =>
    if rt.hasName className then
      Outcome.panic unwrapMsg
    else
      let c := mkRegisteredClass className ivarName selectors ty
      Outcome.ok (c, ⟨some c⟩, ⟨c :: rt.registered⟩)

/-- `register_window_controller_class::<T>` from
`src/appkit/src/window/controller.rs`: subclass of `NSWindowController` named
`RSTWindowController`, one `usize` ivar, and the `windowWillClose:` override. -/
def register_window_controller_class (ty : Nat) (st : FamilyStatic)
    (rt : HostRuntime) : Outcome (ClassHandle × FamilyStatic × HostRuntime) :=
  registerFamilyClass "RSTWindowController" WINDOW_CONTROLLER_PTR
    ["windowWillClose:"] ty st rt

/-- `register_view_controller_class::<T>` from
`src/src/view/controller/macos.rs`: subclass of `NSViewController` named
`RSTViewController`, one `usize` ivar, and the four appearance overrides. -/
def register_view_controller_class (ty : Nat) (st : FamilyStatic)
    (rt : HostRuntime) : Outcome (ClassHandle × FamilyStatic × HostRuntime) :=
  registerFamilyClass "RSTViewController" VIEW_DELEGATE_PTR
    ["viewWillAppear", "viewDidAppear", "viewWillDisappear", "viewDidDisappear"]
    ty st rt

/-- The class handle `register_window_controller_class` caches when its `Once`
fires for callback type `ty`. -/
def windowControllerClass (ty : Nat) : ClassHandle :=
  mkRegisteredClass "RSTWindowController" WINDOW_CONTROLLER_PTR
    ["windowWillClose:"] ty

/-- The class handle `register_view_controller_class` caches when its `Once`
fires for callback type `ty`. -/
def viewControllerClass (ty : Nat) : ClassHandle :=
  mkRegisteredClass "RSTViewController" VIEW_DELEGATE_PTR
    ["viewWillAppear", "viewDidAppear", "viewWillDisappear", "viewDidDisappear"]
    ty

/-- Run a sequence of registration calls (one callback-type token per call)
against a family static and the host runtime, collecting the returned class
handles.  A panic aborts the whole run. -/
def runRegistrations
    (f : Nat → FamilyStatic → HostRuntime →
      Outcome (ClassHandle × FamilyStatic × HostRuntime)) :
    List Nat → FamilyStatic → HostRuntime →
      Outcome (List ClassHandle × FamilyStatic × HostRuntime)
  | [], st, rt => Outcome.ok ([], st, rt)
  | ty :: tys, st, rt =>
    match f ty st rt with
    | Outcome.ok (c, st1, rt1) =>
      match runRegistrations f tys st1 rt1 with
      | Outcome.ok (cs, st2, rt2) => Outcome.ok (c :: cs, st2, rt2)
      | Outcome.err m => Outcome.err m
      | Outcome.panic m => Outcome.panic m
    | Outcome.err m => Outcome.err m
    | Outcome.panic m => Outcome.panic m

/-- The classes held by the host runtime after a registration run (empty when
the run did not finish normally). -/
def runRegs
    (o : Outcome (List ClassHandle × FamilyStatic × HostRuntime)) :
    List ClassHandle :=
  match o with
  | Outcome.ok (_, _, rt) => rt.registered
  | _ => []

/-- Does this registered class carry a trampoline bound to callback type
`ty`?  Used to count, in the host runtime, the classes registered for a given
(family, callback-type) pair. -/
def boundTo (c : ClassHandle) (ty : Nat) : Bool :=
  c.methods.any (fun m => m.2 == ty)

/-! ## Host-interaction events

The message sends and ownership operations that the claims talk about, recorded
in program order.  Host objects are opaque numeric identifiers; ivar values are
machine words modelled as `Nat`. -/

/-- One observable interaction with the host runtime or the callback owner. -/
inductive Ev where
  /-- A host object was allocated (`msg_send![cls, new]`). -/
  | allocView (objc : Nat)
  /-- `set_ivar(slot, addr)` on the freshly allocated instance. -/
  | setIvar (slot : String) (addr : Nat)
  /-- `msg_send![view, setDelegate:view]`. -/
  | setDelegate
  /-- `msg_send![view, setDataSource:view]`. -/
  | setDataSource
  /-- `msg_send![scrollview, setDocumentView:view]`. -/
  | setDocumentView (sv tv : Nat)
  /-- The user callback owner had `did_load` invoked, receiving a handle over
  host object `objc`. -/
  | didLoad (objc : Nat)
  /-- `msg_send![tableview, beginUpdates]`. -/
  | beginUpdates
  /-- `msg_send![tableview, endUpdates]`. -/
  | endUpdates
  /-- `msg_send![tableview, makeViewWithIdentifier:key owner:nil]`. -/
  | makeViewWithIdentifier (identifier : String)
  /-- A registered row factory was invoked for `identifier`. -/
  | factoryInvoked (identifier : String)
  /-- A new host row object was allocated. -/
  | allocRow (objc : Nat)
  /-- `set_identifier` on a freshly built row. -/
  | setRowIdentifier (identifier : String)
  /-- `msg_send![view, superview]` during drop. -/
  | getSuperview
  /-- `msg_send![view, removeFromSuperview]` during drop. -/
  | removeFromSuperview
  /-- The wrapper released its `ShareId` reference to the host object. -/
  | releaseHost
  /-- The boxed callback owner was dropped (freed). -/
  | dropDelegateBox
  /-- The loaded callback owner had `will_close` invoked; `addr` is the loaded
  container address. -/
  | willCloseCb (addr : Nat)
deriving DecidableEq, Repr

/-- Is this event an ivar write?  Clearing (unbinding) a delegate slot would
have to be one. -/
def Ev.isSetIvar : Ev → Bool
  | .setIvar _ _ => true
  | _ => false

/-- Is this event a `did_load` invocation? -/
def Ev.isDidLoad : Ev → Bool
  | .didLoad _ => true
  | _ => false

/-- Is this event an allocation of a new host row object? -/
def Ev.isAllocRow : Ev → Bool
  | .allocRow _ => true
  | _ => false

/-! ## Cell factory

`CellFactory` is `Rc<RefCell<HashMap<&str, Box<Fn() -> Box<Any>>>>>`: shared,
interior-mutable state.  The model keeps a heap `CellStore` from `Rc`
identities to association lists; `CellFactory::new` allocates a fresh identity
with an empty map.  A vendor is summarized by the numeric type token of the
`ViewDelegate` value it produces, which is what the `downcast::<R>` inside
`CellFactory::get` inspects. -/

/-- The association list backing one `CellFactoryMap` (`HashMap` from
identifier to vendor); the vendor is the type token of what it produces. -/
abbrev CellFactoryMap := List (String × Nat)

/-- The heap of live `Rc<RefCell<CellFactoryMap>>` allocations: `next` is the
next fresh identity, `maps` gives each identity its current map. -/
structure CellStore where
  next : Nat
  maps : Nat → CellFactoryMap

/-- `CellFactory::new()`: a fresh `Rc` identity holding an empty map. -/
def CellFactory.new (s : CellStore) : Nat × CellStore :=
  (s.next, ⟨s.next + 1, fun i => if i = s.next then [] else s.maps i⟩)

/-- `CellFactory::insert`: replace any existing binding for `identifier` in
the map behind `rcId` (`HashMap::insert` semantics). -/
def CellFactory.insert (s : CellStore) (rcId : Nat) (identifier : String)
    (vendorTy : Nat) : CellStore :=
  ⟨s.next, fun i =>
    if i = rcId then
      (identifier, vendorTy) :: (s.maps rcId).filter (fun p => p.1 != identifier)
    else s.maps i⟩

/-- `CellFactory::get::<R>` on one map, `rTy` being the type token of `R`:
look the identifier up (panicking when absent), invoke the vendor, then
downcast the produced `Box<Any>` to `R` (panicking on a type mismatch).  The
vendor invocation is recorded; note it happens before the downcast check. -/
def CellFactory.get (m : CellFactoryMap) (rTy : Nat) (identifier : String) :
    Outcome Nat × List Ev :=
  match List.lookup identifier m with
  | none =>
    (Outcome.panic ("Unable to dequeue cell of type " ++ identifier ++
      ": did you forget to register it?"), [])
  | some vendorTy =>
    if vendorTy = rTy then
      (Outcome.ok vendorTy, [Ev.factoryInvoked identifier])
    else
      (Outcome.panic ("Asking for cell of type " ++ identifier ++
        ", but failed to match the type!"), [Ev.factoryInvoked identifier])

/-! ## Widget handles

`TextField<T>` and `ListView<T>` from `src/src/input/mod.rs` and
`src/src/listview/mod.rs`.  The eight layout-anchor fields are opaque host
references derived from the same host object and play no role in any claim, so
they are elided; the remaining fields follow the source declaration order
(which is also Rust field-drop order). -/

/-- The `TextField<T>` handle: host object and optional owned callback. -/
structure TextField (T : Type) where
  objc : Nat
  delegate : Option T

/-- The `ListView<T>` handle: cell factory `Rc` identity, host table view,
companion scroll view, and optional owned callback. -/
structure ListView (T : Type) where
  cellFactory : Nat
  objc : Nat
  scrollview : Nat
  delegate : Option T

/-- What `TextField::with(delegate)` produces: the handle and the trace of
host interactions.  Fresh host addresses (the box address for the callback and
the view identity) are supplied as parameters.  Per the source, the delegate
address is stored in the ivar, but the `did_load` invocation present in
`ListView::with` is commented out here, so no `didLoad` event occurs. -/
def TextField.withDelegate {T : Type} (delegate : T) (boxAddr viewId : Nat) :
    TextField T × List Ev :=
  ({ objc := viewId, delegate := some delegate },
   [Ev.allocView viewId, Ev.setIvar TEXTFIELD_DELEGATE_PTR boxAddr])

/-- `ListView::clone_as_handle`: shares the host table view and scroll view,
carries no delegate, and builds a brand-new empty `CellFactory` rather than
sharing the original `Rc`. -/
def ListView.clone_as_handle {T : Type} (lv : ListView T) (s : CellStore) :
    ListView Unit × CellStore :=
  let (cellId, s1) := CellFactory.new s
  ({ cellFactory := cellId
     objc := lv.objc
     scrollview := lv.scrollview
     delegate := none }, s1)

/-- Result of `ListView::with(delegate)`: the owning handle, the handle clone
passed to `did_load`, the host-interaction trace, and the updated cell-store. -/
structure WithResult (T : Type) where
  view : ListView T
  handle : ListView Unit
  trace : List Ev
  store : CellStore

/-- `ListView::with(delegate)` step by step: box the delegate, build a new
`CellFactory`, allocate the view from the delegate-aware subclass, store the
delegate address and the cell-vendor address in the two ivars, wire
`setDelegate`/`setDataSource`, embed the table into a scroll view, invoke
`did_load` with `clone_as_handle()`, and only then move the boxed delegate
into the handle. -/
def ListView.withDelegate {T : Type} (delegate : T)
    (boxAddr vendorAddr viewId svId : Nat) (s : CellStore) : WithResult T :=
  let (cellId, s1) := CellFactory.new s
  let view : ListView T :=
    { cellFactory := cellId, objc := viewId, scrollview := svId, delegate := none }
  let (handle, s2) := ListView.clone_as_handle view s1
  { view := { view with delegate := some delegate }
    handle := handle
    trace :=
      [Ev.allocView viewId,
       Ev.setIvar LISTVIEW_DELEGATE_PTR boxAddr,
       Ev.setIvar LISTVIEW_CELL_VENDOR_PTR vendorAddr,
       Ev.setDelegate, Ev.setDataSource,
       Ev.setDocumentView svId viewId,
       Ev.didLoad viewId]
    store := s2 }

/-- `ListView::register(identifier, vendor)`: inserts into the cell factory
shared behind the handle. -/
def ListView.registerVendor {T : Type} (lv : ListView T) (s : CellStore)
    (identifier : String) (vendorTy : Nat) : CellStore :=
  CellFactory.insert s lv.cellFactory identifier vendorTy

/-- A row handle vended by `dequeue`.  The row module (src/src/listview/row.rs)
is not under src/; the handle shape follows the specification §4.4. -/
structure ListViewRow where
  objc : Nat
  delegate : Option Nat
  fromCache : Bool
deriving DecidableEq, Repr

/-- Modelled from the spec: `ListViewRow::from_cached` (row.rs absent from
src/) wraps a host view returned by the reuse pool in a row handle marked
from-cache; no callback attachment occurs. -/
def ListViewRow.from_cached (cell : Nat) : ListViewRow :=
  { objc := cell, delegate := none, fromCache := true }

/-- Modelled from the spec: `ListViewRow::with_boxed` (row.rs absent from
src/) allocates a new host row via the callback-aware subclass and stores the
boxed callback address in its delegate slot. -/
def ListViewRow.with_boxed (boxAddr newRowId : Nat) : ListViewRow × List Ev :=
  ({ objc := newRowId, delegate := some boxAddr, fromCache := false },
   [Ev.allocRow newRowId, Ev.setIvar LISTVIEW_ROW_DELEGATE_PTR boxAddr])

/-- `ListView::dequeue::<R>(identifier)`: ask the host reuse pool
(`makeViewWithIdentifier`, modelled by the `pool` oracle); a non-nil answer is
wrapped via `from_cached`, otherwise the cell factory is consulted (panicking
on an unknown identifier), the produced callback boxed into a new row and the
row identifier set.  `rTy` is the type token of `R`; `newRowId` and `boxAddr`
are the fresh host addresses used when a new row is built. -/
def ListView.dequeue {T : Type} (lv : ListView T) (s : CellStore) (rTy : Nat)
    (pool : String → Option Nat) (identifier : String)
    (newRowId boxAddr : Nat) : Outcome ListViewRow × List Ev :=
  let tr0 := [Ev.makeViewWithIdentifier identifier]
  match pool identifier with
  | some cell => (Outcome.ok (ListViewRow.from_cached cell), tr0)
  | none =>
    match CellFactory.get (s.maps lv.cellFactory) rTy identifier with
    | (Outcome.ok _, tr1) =>
      let (row, tr2) := ListViewRow.with_boxed boxAddr newRowId
      (Outcome.ok row, tr0 ++ tr1 ++ tr2 ++ [Ev.setRowIdentifier identifier])
    | (Outcome.err m, tr1) => (Outcome.err m, tr0 ++ tr1)
    | (Outcome.panic m, tr1) => (Outcome.panic m, tr0 ++ tr1)

/-- `ListView::perform_batch_updates(update)`: send `beginUpdates`, clone a
handle, run the user function, send `endUpdates`.  The user function is given
as a Lean function returning its emitted trace, its updated cell store and a
flag saying whether it exits through the failure channel; there is no unwind
guard in the source, so on failure the panic propagates before the trailing
`endUpdates` send. -/
def ListView.perform_batch_updates {T : Type} (lv : ListView T) (s : CellStore)
    (update : ListView Unit → CellStore → List Ev × CellStore × Bool) :
    Outcome Unit × List Ev × CellStore :=
  let (handle, s1) := ListView.clone_as_handle lv s
  let (utr, s2, fails) := update handle s1
  if fails then
    (Outcome.panic "closure unwound", Ev.beginUpdates :: utr, s2)
  else
    (Outcome.ok (), Ev.beginUpdates :: (utr ++ [Ev.endUpdates]), s2)

/-! ## Drop glue

`impl Drop for TextField<T>` and `impl Drop for ListView<T>`: when the handle
owns a delegate, read `superview` and, if attached, send `removeFromSuperview`.
Nothing clears any ivar.  After the `drop` body, Rust drops the fields in
declaration order, releasing the `ShareId` host reference and then dropping
the delegate box (when present); the anchor and scroll-view fields are elided
as before.  The current superview of the host object is an oracle parameter. -/

/-- The full event trace of dropping a `TextField` handle. -/
def TextField.drop {T : Type} (tf : TextField T) (superview : Option Nat) :
    List Ev :=
  (if tf.delegate.isSome then
    Ev.getSuperview ::
      (match superview with
       | some _ => [Ev.removeFromSuperview]
       | none => [])
  else []) ++
  [Ev.releaseHost] ++
  (if tf.delegate.isSome then [Ev.dropDelegateBox] else [])

/-- The full event trace of dropping a `ListView` handle; the drop body is
identical to the `TextField` one. -/
def ListView.drop {T : Type} (lv : ListView T) (superview : Option Nat) :
    List Ev :=
  (if lv.delegate.isSome then
    Ev.getSuperview ::
      (match superview with
       | some _ => [Ev.removeFromSuperview]
       | none => [])
  else []) ++
  [Ev.releaseHost] ++
  (if lv.delegate.isSome then [Ev.dropDelegateBox] else [])

/-! ## Delegate pointer bridge and the `windowWillClose:` trampoline

The trampoline `will_close::<T>` in `src/appkit/src/window/controller.rs`
calls `load::<T>(this, WINDOW_CONTROLLER_PTR)`, borrows the returned
`Rc<RefCell<T>>`, invokes the callback, and finally `Rc::into_raw`s the `Rc`
back.  `crate::utils::load` itself is not under src/. -/

/-- The bridge-visible state: the ivars of the host instance, the strong count
of each heap container, and whether the container ownership at an address is
currently published (leaked to the slot as a raw pointer). -/
structure BridgeState where
  ivars : String → Nat
  rcCount : Nat → Nat
  published : Nat → Bool

/-- Modelled from the spec: `crate::utils::load` (utils module absent from
src/) reads the integer ivar and reconstructs the shared container with
`Rc::from_raw`, taking back the published ownership without changing the
strong count or the slot. -/
def load (st : BridgeState) (slot : String) : Nat × BridgeState :=
  let a := st.ivars slot
  (a, { st with published := fun x => if x = a then false else st.published x })

/-- `Rc::into_raw`: publish the container ownership back to raw form; the
strong count is untouched and the container stays alive. -/
def rcIntoRaw (st : BridgeState) (a : Nat) : BridgeState :=
  { st with published := fun x => if x = a then true else st.published x }

/-- The `will_close::<T>` trampoline: `load` the container from
`WINDOW_CONTROLLER_PTR`, borrow it and invoke the `will_close` callback, then
`Rc::into_raw` the container so the stored address stays valid.  Returns the
loaded address, the emitted events and the final state. -/
def will_close (st : BridgeState) : Nat × List Ev × BridgeState :=
  let (window, st1) := load st WINDOW_CONTROLLER_PTR
  let tr := [Ev.willCloseCb window]
  let st2 := rcIntoRaw st1 window
  (window, tr, st2)

/-! ## Theorems -/

/-- Once the family static caches a class, every later registration call
returns it unchanged without touching the host runtime. -/
theorem registerFamilyClass_initialized (className ivarName : String)
    (selectors : List String) (ty : Nat) (c : ClassHandle) (rt : HostRuntime) :
    registerFamilyClass className ivarName selectors ty ⟨some c⟩ rt =
      Outcome.ok (c, ⟨some c⟩, rt) := rfl

/-- First ever registration call for a family whose name is free: the class is
built for the calling callback type, registered, and cached. -/
theorem registerFamilyClass_fresh (className ivarName : String)
    (selectors : List String) (ty : Nat) (rt : HostRuntime)
    (h : rt.hasName className = false) :
    registerFamilyClass className ivarName selectors ty ⟨none⟩ rt =
      Outcome.ok (mkRegisteredClass className ivarName selectors ty,
        ⟨some (mkRegisteredClass className ivarName selectors ty)⟩,
        ⟨mkRegisteredClass className ivarName selectors ty :: rt.registered⟩) := by
  simp [registerFamilyClass, h]

/-- A run of registration calls against an already-initialized family static
returns the cached class every time and never registers anything. -/
theorem runRegistrations_initialized
    (f : Nat → FamilyStatic → HostRuntime →
      Outcome (ClassHandle × FamilyStatic × HostRuntime))
    (c : ClassHandle)
    (h : ∀ ty rt, f ty ⟨some c⟩ rt = Outcome.ok (c, ⟨some c⟩, rt)) :
    ∀ (tys : List Nat) (rt : HostRuntime),
      runRegistrations f tys ⟨some c⟩ rt =
        Outcome.ok (List.replicate tys.length c, ⟨some c⟩, rt) := by
  intro tys
  induction tys with
  | nil => intro rt; rfl
  | cons ty tys ih =>
    intro rt
    simp [runRegistrations, h, ih, List.replicate_succ]

/-- Claim C1 (amended): for each widget family, registration happens exactly
once per family, not per (family, callback-type) pair: the first call, for
whatever callback type, registers the single family class (with trampolines
bound to that first type) and every later call, for the same or any other
callback type, returns the identical class handle with no further
registration in the host runtime. -/
theorem C1_registration_once_per_family :
    ∀ (ty : Nat) (tys : List Nat) (rtW rtV : HostRuntime),
    rtW.hasName "RSTWindowController" = false →
    rtV.hasName "RSTViewController" = false →
    (runRegistrations register_window_controller_class (ty :: tys) ⟨none⟩ rtW =
      Outcome.ok (List.replicate (tys.length + 1) (windowControllerClass ty),
        ⟨some (windowControllerClass ty)⟩,
        ⟨windowControllerClass ty :: rtW.registered⟩)) ∧
    (runRegistrations register_view_controller_class (ty :: tys) ⟨none⟩ rtV =
      Outcome.ok (List.replicate (tys.length + 1) (viewControllerClass ty),
        ⟨some (viewControllerClass ty)⟩,
        ⟨viewControllerClass ty :: rtV.registered⟩)) := by
  intro ty tys rtW rtV hW hV
  constructor
  · have h1 := registerFamilyClass_fresh "RSTWindowController"
      WINDOW_CONTROLLER_PTR ["windowWillClose:"] ty rtW hW
    have h2 := runRegistrations_initialized register_window_controller_class
      (windowControllerClass ty) (fun _ _ => rfl) tys
      ⟨windowControllerClass ty :: rtW.registered⟩
    simp only [runRegistrations, register_window_controller_class,
      windowControllerClass] at h1 h2 ⊢
    simp only [h1, h2, List.replicate_succ]
  · have h1 := registerFamilyClass_fresh "RSTViewController" VIEW_DELEGATE_PTR
      ["viewWillAppear", "viewDidAppear", "viewWillDisappear", "viewDidDisappear"]
      ty rtV hV
    have h2 := runRegistrations_initialized register_view_controller_class
      (viewControllerClass ty) (fun _ _ => rfl) tys
      ⟨viewControllerClass ty :: rtV.registered⟩
    simp only [runRegistrations, register_view_controller_class,
      viewControllerClass] at h1 h2 ⊢
    simp only [h1, h2, List.replicate_succ]

/-- Claim C1 witness: three successive window-controller registrations (types
0, 0, 1) from a fresh process state return three identical handles and leave
exactly one registered class; same for the view-controller family. -/
theorem C1_registration_once_per_family_witness :
    ((⟨[]⟩ : HostRuntime).hasName "RSTWindowController" = false) ∧
    ((⟨[]⟩ : HostRuntime).hasName "RSTViewController" = false) ∧
    (runRegistrations register_window_controller_class [0, 0, 1] ⟨none⟩ ⟨[]⟩ =
      Outcome.ok (List.replicate 3 (windowControllerClass 0),
        ⟨some (windowControllerClass 0)⟩, ⟨[windowControllerClass 0]⟩)) ∧
    (runRegistrations register_view_controller_class [0, 0, 1] ⟨none⟩ ⟨[]⟩ =
      Outcome.ok (List.replicate 3 (viewControllerClass 0),
        ⟨some (viewControllerClass 0)⟩, ⟨[viewControllerClass 0]⟩)) :=
  ⟨rfl, rfl,
   (C1_registration_once_per_family 0 [0, 1] ⟨[]⟩ ⟨[]⟩ rfl rfl).1,
   (C1_registration_once_per_family 0 [0, 1] ⟨[]⟩ ⟨[]⟩ rfl rfl).2⟩

/-- Claim C1 counterexample: calling the window-controller registration for
the two distinct callback types 0 and 1 from a fresh process state does NOT
leave one class registered for each pair; only the type-0 pair ever gets a
registration (the type-1 call is absorbed by the shared per-family `Once` and
returns the type-0 class). -/
theorem C1_counterexample :
    ¬ ((((runRegs (runRegistrations register_window_controller_class [0, 1]
          ⟨none⟩ ⟨[]⟩)).filter (fun c => boundTo c 0)).length = 1) ∧
       (((runRegs (runRegistrations register_window_controller_class [0, 1]
          ⟨none⟩ ⟨[]⟩)).filter (fun c => boundTo c 1)).length = 1)) := by
  decide

/-- Claim C9 (amended): when the host runtime already holds a class with the
wanted name and the family `Once` has not fired, the registration call exits
through the failure channel (the `unwrap` panic on `ClassDecl::new` returning
`None`) with no partial recovery; no `HostRuntimeRejected` error value is
returned, since the function cannot return errors at all. -/
theorem C9_rejection_panics :
    ∀ (ty : Nat) (rtW rtV : HostRuntime),
    rtW.hasName "RSTWindowController" = true →
    rtV.hasName "RSTViewController" = true →
    (register_window_controller_class ty ⟨none⟩ rtW = Outcome.panic unwrapMsg) ∧
    (register_view_controller_class ty ⟨none⟩ rtV = Outcome.panic unwrapMsg) := by
  intro ty rtW rtV hW hV
  constructor
  · simp [register_window_controller_class, registerFamilyClass, hW]
  · simp [register_view_controller_class, registerFamilyClass, hV]

/-- Claim C9 witness: with a colliding pre-existing class in the runtime, both
family registrations panic. -/
theorem C9_rejection_panics_witness :
    ((⟨[⟨"RSTWindowController", [], []⟩]⟩ : HostRuntime).hasName
      "RSTWindowController" = true) ∧
    ((⟨[⟨"RSTViewController", [], []⟩]⟩ : HostRuntime).hasName
      "RSTViewController" = true) ∧
    (register_window_controller_class 0 ⟨none⟩
      ⟨[⟨"RSTWindowController", [], []⟩]⟩ = Outcome.panic unwrapMsg) ∧
    (register_view_controller_class 0 ⟨none⟩
      ⟨[⟨"RSTViewController", [], []⟩]⟩ = Outcome.panic unwrapMsg) :=
  ⟨by decide, by decide,
   (C9_rejection_panics 0 ⟨[⟨"RSTWindowController", [], []⟩]⟩
     ⟨[⟨"RSTViewController", [], []⟩]⟩ (by decide) (by decide)).1,
   (C9_rejection_panics 0 ⟨[⟨"RSTWindowController", [], []⟩]⟩
     ⟨[⟨"RSTViewController", [], []⟩]⟩ (by decide) (by decide)).2⟩

/-- Claim C9 counterexample: a rejected window-controller registration (name
collision with a pre-existing class) is a panic, not an explicit
result-or-error value handed to the caller, contrary to the claim. -/
theorem C9_counterexample :
    ((register_window_controller_class 0 ⟨none⟩
      ⟨[⟨"RSTWindowController", [], []⟩]⟩).isErr = false) ∧
    ((register_window_controller_class 0 ⟨none⟩
      ⟨[⟨"RSTWindowController", [], []⟩]⟩).isPanic = true) := by
  decide

/-- Claim C2 (amended): in `ListView::with(callback)` the store of the boxed
callback address into the delegate ivar (trace index 1) happens strictly
before the single `did_load` invocation (trace index 6), and `did_load`
receives a non-owning handle clone (delegate `none`, same host object); the
boxed callback ends up owned by the returned handle.  In `TextField::with`,
however, the store happens but `did_load` is never invoked (the call is
commented out in the source). -/
theorem C2_store_before_did_load :
    ∀ {T : Type} (d : T) (boxAddr vendorAddr viewId svId : Nat) (s : CellStore)
      (d2 : T) (a2 v2 : Nat),
    ((ListView.withDelegate d boxAddr vendorAddr viewId svId s).trace.get? 1 =
      some (Ev.setIvar LISTVIEW_DELEGATE_PTR boxAddr)) ∧
    ((ListView.withDelegate d boxAddr vendorAddr viewId svId s).trace.get? 6 =
      some (Ev.didLoad viewId)) ∧
    ((ListView.withDelegate d boxAddr vendorAddr viewId svId s).trace.filter
      Ev.isDidLoad = [Ev.didLoad viewId]) ∧
    ((ListView.withDelegate d boxAddr vendorAddr viewId svId s).handle.delegate
      = none) ∧
    ((ListView.withDelegate d boxAddr vendorAddr viewId svId s).handle.objc =
      (ListView.withDelegate d boxAddr vendorAddr viewId svId s).view.objc) ∧
    ((ListView.withDelegate d boxAddr vendorAddr viewId svId s).view.delegate =
      some d) ∧
    ((TextField.withDelegate d2 a2 v2).2 =
      [Ev.allocView v2, Ev.setIvar TEXTFIELD_DELEGATE_PTR a2]) ∧
    ((TextField.withDelegate d2 a2 v2).2.filter Ev.isDidLoad = []) ∧
    ((TextField.withDelegate d2 a2 v2).1.delegate = some d2) := by
  intro T d boxAddr vendorAddr viewId svId s d2 a2 v2
  exact ⟨rfl, rfl, rfl, rfl, rfl, rfl, rfl, rfl, rfl⟩

/-- Claim C2 counterexample: a concrete `TextField::with` construction stores
the callback address but its trace contains no `did_load` invocation at all,
refuting the claim for the TextField widget family. -/
theorem C2_counterexample :
    ((TextField.withDelegate () 5 7).2.any Ev.isDidLoad = false) ∧
    ((TextField.withDelegate () 5 7).2 =
      [Ev.allocView 7, Ev.setIvar TEXTFIELD_DELEGATE_PTR 5]) := by
  decide

/-- Claim C3 (amended): `perform_batch_updates` sends `beginUpdates` before
the user function, and sends `endUpdates` after it only on the normal-return
path; when the user function exits through the failure channel, the panic
propagates and `endUpdates` is not sent (there is no unwind guard), so the
wrapper adds a `beginUpdates` but no matching `endUpdates` on that path. -/
theorem C3_end_updates_only_on_normal_return :
    ∀ {T : Type} (lv : ListView T) (s : CellStore)
      (update : ListView Unit → CellStore → List Ev × CellStore × Bool)
      (utr : List Ev) (s2 : CellStore) (fails : Bool),
    update (ListView.clone_as_handle lv s).1 (ListView.clone_as_handle lv s).2 =
      (utr, s2, fails) →
    ((ListView.perform_batch_updates lv s update).2.1 =
      if fails then Ev.beginUpdates :: utr
      else Ev.beginUpdates :: (utr ++ [Ev.endUpdates])) ∧
    ((ListView.perform_batch_updates lv s update).1 =
      if fails then Outcome.panic "closure unwound" else Outcome.ok ()) ∧
    (fails = true →
      (ListView.perform_batch_updates lv s update).2.1.count Ev.endUpdates =
        utr.count Ev.endUpdates) := by
  intro T lv s update utr s2 fails h
  rcases hc : ListView.clone_as_handle lv s with ⟨handle, s1⟩
  rw [hc] at h
  have hp : ListView.perform_batch_updates lv s update =
      if fails then (Outcome.panic "closure unwound", Ev.beginUpdates :: utr, s2)
      else (Outcome.ok (), Ev.beginUpdates :: (utr ++ [Ev.endUpdates]), s2) := by
    unfold ListView.perform_batch_updates
    rw [hc]
    simp only [h]
  cases fails
  · simp [hp]
  · simp [hp, List.count_cons]

/-- Claim C3 witness: instantiating the amended theorem with an immediately
failing user function shows the failure-path trace is exactly
`[beginUpdates]`, with no `endUpdates`. -/
theorem C3_end_updates_witness :
    ((fun (_ : ListView Unit) (st : CellStore) => (([] : List Ev), st, true))
      (ListView.clone_as_handle (⟨0, 1, 2, none⟩ : ListView Unit)
        ⟨1, fun _ => []⟩).1
      (ListView.clone_as_handle (⟨0, 1, 2, none⟩ : ListView Unit)
        ⟨1, fun _ => []⟩).2 =
      ([], (ListView.clone_as_handle (⟨0, 1, 2, none⟩ : ListView Unit)
        ⟨1, fun _ => []⟩).2, true)) ∧
    ((ListView.perform_batch_updates (⟨0, 1, 2, none⟩ : ListView Unit)
      ⟨1, fun _ => []⟩ (fun _ st => ([], st, true))).2.1 = [Ev.beginUpdates]) ∧
    ((ListView.perform_batch_updates (⟨0, 1, 2, none⟩ : ListView Unit)
      ⟨1, fun _ => []⟩ (fun _ st => ([], st, true))).1 =
      Outcome.panic "closure unwound") :=
  ⟨rfl,
   (C3_end_updates_only_on_normal_return (⟨0, 1, 2, none⟩ : ListView Unit)
     ⟨1, fun _ => []⟩ (fun _ st => ([], st, true)) [] _ true rfl).1,
   (C3_end_updates_only_on_normal_return (⟨0, 1, 2, none⟩ : ListView Unit)
     ⟨1, fun _ => []⟩ (fun _ st => ([], st, true)) [] _ true rfl).2.1⟩

/-- Claim C3 counterexample: with a user function that exits through the
failure channel, the emitted trace is `[beginUpdates]`: the `beginUpdates`
and `endUpdates` counts differ, so begin and end are not always paired,
contrary to the claim. -/
theorem C3_counterexample :
    ((ListView.perform_batch_updates (⟨0, 1, 2, none⟩ : ListView Unit)
        ⟨1, fun _ => []⟩ (fun _ st => ([], st, true))).2.1.count Ev.endUpdates ≠
      (ListView.perform_batch_updates (⟨0, 1, 2, none⟩ : ListView Unit)
        ⟨1, fun _ => []⟩ (fun _ st => ([], st, true))).2.1.count Ev.beginUpdates) ∧
    ((ListView.perform_batch_updates (⟨0, 1, 2, none⟩ : ListView Unit)
        ⟨1, fun _ => []⟩ (fun _ st => ([], st, true))).2.1 = [Ev.beginUpdates]) := by
  decide

/-- Claim C4: `dequeue(identifier)` first asks the host reuse pool; a non-nil
answer becomes a from-cache row handle (no callback attachment, no factory
invocation, trace is the single pool query); only on a pool miss is the
registered factory looked up and invoked, after which a new row is allocated,
the callback stored, and the row identifier set. -/
theorem C4_dequeue_cache_first :
    ∀ {T : Type} (lv : ListView T) (s : CellStore) (rTy : Nat)
      (pool : String → Option Nat) (identifier : String)
      (cell newRowId boxAddr vendorTy : Nat),
    (pool identifier = some cell →
      ListView.dequeue lv s rTy pool identifier newRowId boxAddr =
        (Outcome.ok { objc := cell, delegate := none, fromCache := true },
         [Ev.makeViewWithIdentifier identifier])) ∧
    (pool identifier = none →
      List.lookup identifier (s.maps lv.cellFactory) = some vendorTy →
      vendorTy = rTy →
      ListView.dequeue lv s rTy pool identifier newRowId boxAddr =
        (Outcome.ok { objc := newRowId, delegate := some boxAddr, fromCache := false },
         [Ev.makeViewWithIdentifier identifier, Ev.factoryInvoked identifier,
          Ev.allocRow newRowId, Ev.setIvar LISTVIEW_ROW_DELEGATE_PTR boxAddr,
          Ev.setRowIdentifier identifier])) := by
  intro T lv s rTy pool identifier cell newRowId boxAddr vendorTy
  constructor
  · intro h
    simp [ListView.dequeue, h, ListViewRow.from_cached]
  · intro h1 h2 h3
    simp [ListView.dequeue, h1, CellFactory.get, h2, h3,
      ListViewRow.with_boxed]

/-- Claim C4 witness: a pool hit returns the cached view as a from-cache row
with a one-event trace; a pool miss with a registered matching factory builds
a new row, stores the callback and sets the identifier. -/
theorem C4_dequeue_cache_first_witness :
    ((fun (_ : String) => some 42) "cached" = some 42) ∧
    (ListView.dequeue (⟨0, 1, 2, none⟩ : ListView Unit) ⟨1, fun _ => []⟩ 5
      (fun _ => some 42) "cached" 9 10 =
      (Outcome.ok { objc := 42, delegate := none, fromCache := true },
       [Ev.makeViewWithIdentifier "cached"])) ∧
    ((fun (_ : String) => (none : Option Nat)) "row" = none) ∧
    (List.lookup "row"
      ((⟨1, fun _ => [("row", 5)]⟩ : CellStore).maps 0) = some 5) ∧
    (ListView.dequeue (⟨0, 1, 2, none⟩ : ListView Unit)
      ⟨1, fun _ => [("row", 5)]⟩ 5 (fun _ => none) "row" 9 10 =
      (Outcome.ok { objc := 9, delegate := some 10, fromCache := false },
       [Ev.makeViewWithIdentifier "row", Ev.factoryInvoked "row",
        Ev.allocRow 9, Ev.setIvar LISTVIEW_ROW_DELEGATE_PTR 10,
        Ev.setRowIdentifier "row"])) :=
  ⟨rfl,
   (C4_dequeue_cache_first (⟨0, 1, 2, none⟩ : ListView Unit) ⟨1, fun _ => []⟩ 5
     (fun _ => some 42) "cached" 42 9 10 5).1 rfl,
   rfl, rfl,
   (C4_dequeue_cache_first (⟨0, 1, 2, none⟩ : ListView Unit)
     ⟨1, fun _ => [("row", 5)]⟩ 5 (fun _ => none) "row" 42 9 10 5).2
     rfl rfl rfl⟩

/-- Claim C5 (amended): a `dequeue` whose identifier misses both the host
reuse pool and the factory map fails fast through the failure channel with
the unable-to-dequeue panic naming the identifier; no new host row object is
allocated.  The failure is a panic, not an explicit result-or-error value. -/
theorem C5_unknown_identifier_panics :
    ∀ {T : Type} (lv : ListView T) (s : CellStore) (rTy : Nat)
      (pool : String → Option Nat) (identifier : String) (newRowId boxAddr : Nat),
    pool identifier = none →
    List.lookup identifier (s.maps lv.cellFactory) = none →
    (ListView.dequeue lv s rTy pool identifier newRowId boxAddr =
      (Outcome.panic ("Unable to dequeue cell of type " ++ identifier ++
        ": did you forget to register it?"),
       [Ev.makeViewWithIdentifier identifier])) ∧
    ((ListView.dequeue lv s rTy pool identifier newRowId boxAddr).1.isErr =
      false) ∧
    ((ListView.dequeue lv s rTy pool identifier newRowId boxAddr).2.any
      Ev.isAllocRow = false) := by
  intro T lv s rTy pool identifier newRowId boxAddr h1 h2
  have hmain : ListView.dequeue lv s rTy pool identifier newRowId boxAddr =
      (Outcome.panic ("Unable to dequeue cell of type " ++ identifier ++
        ": did you forget to register it?"),
       [Ev.makeViewWithIdentifier identifier]) := by
    simp [ListView.dequeue, h1, CellFactory.get, h2]
  refine ⟨hmain, ?_, ?_⟩ <;> rw [hmain] <;> rfl

/-- Claim C5 witness: a concrete dequeue of an unregistered identifier with an
empty pool panics with the expected message, returns no error value, and
allocates no row. -/
theorem C5_unknown_identifier_panics_witness :
    ((fun (_ : String) => (none : Option Nat)) "missing" = none) ∧
    (List.lookup "missing" ((⟨1, fun _ => []⟩ : CellStore).maps 0) = none) ∧
    (ListView.dequeue (⟨0, 1, 2, none⟩ : ListView Unit) ⟨1, fun _ => []⟩ 0
      (fun _ => none) "missing" 9 10 =
      (Outcome.panic
        "Unable to dequeue cell of type missing: did you forget to register it?",
       [Ev.makeViewWithIdentifier "missing"])) ∧
    ((ListView.dequeue (⟨0, 1, 2, none⟩ : ListView Unit) ⟨1, fun _ => []⟩ 0
      (fun _ => none) "missing" 9 10).2.any Ev.isAllocRow = false) :=
  ⟨rfl, rfl,
   (C5_unknown_identifier_panics (⟨0, 1, 2, none⟩ : ListView Unit)
     ⟨1, fun _ => []⟩ 0 (fun _ => none) "missing" 9 10 rfl rfl).1,
   (C5_unknown_identifier_panics (⟨0, 1, 2, none⟩ : ListView Unit)
     ⟨1, fun _ => []⟩ 0 (fun _ => none) "missing" 9 10 rfl rfl).2.2⟩

/-- Claim C5 counterexample: the failure for an unregistered identifier is a
panic, not an error value returned to the caller (`dequeue` cannot return
errors at all), contrary to the explicit result-or-error part of the claim. -/
theorem C5_counterexample :
    ((ListView.dequeue (⟨0, 1, 2, none⟩ : ListView Unit) ⟨1, fun _ => []⟩ 0
      (fun _ => none) "missing" 9 10).1.isErr = false) ∧
    ((ListView.dequeue (⟨0, 1, 2, none⟩ : ListView Unit) ⟨1, fun _ => []⟩ 0
      (fun _ => none) "missing" 9 10).1.isPanic = true) ∧
    ((ListView.dequeue (⟨0, 1, 2, none⟩ : ListView Unit) ⟨1, fun _ => []⟩ 0
      (fun _ => none) "missing" 9 10).2.any Ev.isAllocRow = false) := by
  decide

/-- Claim C6: dropping a `TextField` or `ListView` handle sends
`removeFromSuperview` exactly when the handle owns a callback and the host
view currently has a superview; a callback-less handle performs no
detachment. -/
theorem C6_detach_iff_delegated_and_parented :
    ∀ {T U : Type} (tf : TextField T) (lv : ListView U) (sv1 sv2 : Option Nat),
    (Ev.removeFromSuperview ∈ TextField.drop tf sv1 ↔
      tf.delegate.isSome = true ∧ sv1.isSome = true) ∧
    (Ev.removeFromSuperview ∈ ListView.drop lv sv2 ↔
      lv.delegate.isSome = true ∧ sv2.isSome = true) := by
  intro T U tf lv sv1 sv2
  constructor
  · rcases tf with ⟨o, d⟩
    cases d <;> cases sv1 <;> simp [TextField.drop]
  · rcases lv with ⟨c, o, sc, d⟩
    cases d <;> cases sv2 <;> simp [ListView.drop]

/-- Claim C7 (amended): dropping a widget handle never clears (unbinds) the
delegate-pointer slot: the drop trace contains no ivar write at all; the
wrapper releases its host reference, and, when it owned a callback, frees the
callback box, leaving the slot holding the stale address. -/
theorem C7_no_unbind_on_drop :
    ∀ {T U : Type} (tf : TextField T) (lv : ListView U) (sv1 sv2 : Option Nat),
    ((TextField.drop tf sv1).any Ev.isSetIvar = false) ∧
    (Ev.releaseHost ∈ TextField.drop tf sv1) ∧
    (Ev.dropDelegateBox ∈ TextField.drop tf sv1 ↔ tf.delegate.isSome = true) ∧
    ((ListView.drop lv sv2).any Ev.isSetIvar = false) ∧
    (Ev.releaseHost ∈ ListView.drop lv sv2) ∧
    (Ev.dropDelegateBox ∈ ListView.drop lv sv2 ↔ lv.delegate.isSome = true) := by
  intro T U tf lv sv1 sv2
  rcases tf with ⟨o, d⟩
  rcases lv with ⟨c, o2, sc, d2⟩
  refine ⟨?_, ?_, ?_, ?_, ?_, ?_⟩ <;>
    cases d <;> cases d2 <;> cases sv1 <;> cases sv2 <;>
    simp [TextField.drop, ListView.drop, Ev.isSetIvar]

/-- Claim C7 counterexample: dropping a concrete callback-owning `TextField`
emits `[getSuperview, removeFromSuperview, releaseHost, dropDelegateBox]` and
in particular performs no ivar write: the delegate slot is never cleared
before the host reference is released, contrary to the claim. -/
theorem C7_counterexample :
    ((TextField.drop (⟨7, some ()⟩ : TextField Unit) (some 3)).any
      Ev.isSetIvar = false) ∧
    (TextField.drop (⟨7, some ()⟩ : TextField Unit) (some 3) =
      [Ev.getSuperview, Ev.removeFromSuperview, Ev.releaseHost,
       Ev.dropDelegateBox]) := by
  decide

/-- Claim C8: for an instance whose delegate slot holds the address of the
callback container `c` (validly published), the `windowWillClose:` trampoline
loads exactly that address, invokes `will_close` on it, and on return
re-publishes the container: the slot, the strong counts and the published
flag are all unchanged, so the stored address stays valid with no net change
in reference count. -/
theorem C8_slot_round_trip :
    ∀ (st : BridgeState) (a : Nat),
    st.ivars WINDOW_CONTROLLER_PTR = a →
    st.published a = true →
    ((will_close st).1 = a) ∧
    ((will_close st).2.1 = [Ev.willCloseCb a]) ∧
    (∀ slot, (will_close st).2.2.ivars slot = st.ivars slot) ∧
    (∀ x, (will_close st).2.2.rcCount x = st.rcCount x) ∧
    ((will_close st).2.2.published a = true) := by
  intro st a h1 h2
  refine ⟨?_, ?_, ?_, ?_, ?_⟩ <;>
    simp [will_close, load, rcIntoRaw, h1]

/-- Claim C8 witness: a concrete state whose slot holds address 5 round-trips
through `will_close` with the address loaded, the slot preserved and the
container still published. -/
theorem C8_slot_round_trip_witness :
    ((⟨fun _ => 5, fun _ => 1, fun _ => true⟩ : BridgeState).ivars
      WINDOW_CONTROLLER_PTR = 5) ∧
    ((⟨fun _ => 5, fun _ => 1, fun _ => true⟩ : BridgeState).published 5 =
      true) ∧
    ((will_close ⟨fun _ => 5, fun _ => 1, fun _ => true⟩).1 = 5) ∧
    ((will_close ⟨fun _ => 5, fun _ => 1, fun _ => true⟩).2.2.published 5 =
      true) :=
  ⟨rfl, rfl,
   (C8_slot_round_trip ⟨fun _ => 5, fun _ => 1, fun _ => true⟩ 5 rfl rfl).1,
   (C8_slot_round_trip ⟨fun _ => 5, fun _ => 1, fun _ => true⟩ 5 rfl
     rfl).2.2.2.2⟩

/-- Claim C10: `clone_as_handle` builds its cell factory with
`CellFactory::new()`: a fresh `Rc` identity distinct from the owner, holding
an empty map, leaving the owner map untouched; hence a dequeue through the
clone that misses the host reuse pool panics with the unknown-identifier
message even for an identifier registered on the owner. -/
theorem C10_handle_clone_fresh_factory :
    ∀ {T : Type} (lv : ListView T) (s : CellStore) (identifier : String)
      (vendorTy : Nat) (pool : String → Option Nat) (rTy newRowId boxAddr : Nat),
    lv.cellFactory < s.next →
    List.lookup identifier (s.maps lv.cellFactory) = some vendorTy →
    pool identifier = none →
    ((ListView.clone_as_handle lv s).1.cellFactory ≠ lv.cellFactory) ∧
    ((ListView.clone_as_handle lv s).2.maps
      (ListView.clone_as_handle lv s).1.cellFactory = []) ∧
    ((ListView.clone_as_handle lv s).2.maps lv.cellFactory =
      s.maps lv.cellFactory) ∧
    ((ListView.clone_as_handle lv s).1.delegate = none) ∧
    ((ListView.clone_as_handle lv s).1.objc = lv.objc) ∧
    ((ListView.dequeue (ListView.clone_as_handle lv s).1
      (ListView.clone_as_handle lv s).2 rTy pool identifier newRowId
      boxAddr).1 =
      Outcome.panic ("Unable to dequeue cell of type " ++ identifier ++
        ": did you forget to register it?")) := by
  intro T lv s identifier vendorTy pool rTy newRowId boxAddr hval hreg hpool
  have hne : lv.cellFactory ≠ s.next := Nat.ne_of_lt hval
  refine ⟨?_, ?_, ?_, rfl, rfl, ?_⟩
  · exact fun h => hne h.symm
  · simp [ListView.clone_as_handle, CellFactory.new]
  · simp [ListView.clone_as_handle, CellFactory.new, hne]
  · simp [ListView.dequeue, hpool, ListView.clone_as_handle,
      CellFactory.new, CellFactory.get]

/-- Claim C10 witness: an owner with identifier "row" registered dequeues it
through a handle clone (pool miss) and hits the unknown-identifier panic; the
clone factory identity is fresh and its map empty. -/
theorem C10_handle_clone_fresh_factory_witness :
    ((⟨0, 1, 2, none⟩ : ListView Unit).cellFactory <
      (⟨1, fun i => if i = 0 then [("row", 5)] else []⟩ : CellStore).next) ∧
    (List.lookup "row"
      ((⟨1, fun i => if i = 0 then [("row", 5)] else []⟩ : CellStore).maps
        (⟨0, 1, 2, none⟩ : ListView Unit).cellFactory) = some 5) ∧
    ((fun (_ : String) => (none : Option Nat)) "row" = none) ∧
    ((ListView.clone_as_handle (⟨0, 1, 2, none⟩ : ListView Unit)
      ⟨1, fun i => if i = 0 then [("row", 5)] else []⟩).1.cellFactory ≠
      (⟨0, 1, 2, none⟩ : ListView Unit).cellFactory) ∧
    ((ListView.dequeue
      (ListView.clone_as_handle (⟨0, 1, 2, none⟩ : ListView Unit)
        ⟨1, fun i => if i = 0 then [("row", 5)] else []⟩).1
      (ListView.clone_as_handle (⟨0, 1, 2, none⟩ : ListView Unit)
        ⟨1, fun i => if i = 0 then [("row", 5)] else []⟩).2
      5 (fun _ => none) "row" 9 10).1 =
      Outcome.panic
        "Unable to dequeue cell of type row: did you forget to register it?") :=
  ⟨by decide, by decide, rfl,
   (C10_handle_clone_fresh_factory (⟨0, 1, 2, none⟩ : ListView Unit)
     ⟨1, fun i => if i = 0 then [("row", 5)] else []⟩ "row" 5 (fun _ => none)
     5 9 10 (by decide) (by decide) rfl).1,
   (C10_handle_clone_fresh_factory (⟨0, 1, 2, none⟩ : ListView Unit)
     ⟨1, fun i => if i = 0 then [("row", 5)] else []⟩ "row" 5 (fun _ => none)
     5 9 10 (by decide) (by decide) rfl).2.2.2.2.2⟩

end Cacao
